import Mathlib

/-! Shallow embedding notes.
Shallow embedding of the Spatial-accessibility pipeline (scripts 02-05):
H3 grid generation, raster population extraction, nearest-facility
assignment with OSRM routing, and facility-level metric aggregation.
Numeric columns are modelled over `ℚ` (exact values of the dataframes);
the Euclidean distance reported by the KDTree query, which involves a
square root, is modelled over `ℝ`.
-/

namespace SpatialAccessibility

/-! Script 02: `generate_h3_grids` (02_generate_grids.py)

The h3 library calls are external: `polyfillResult` stands for
`list(h3.polyfill_geojson(geojson_geom, resolution))` (a Python set, hence
duplicate-free) and `boundaryPoly h` for
`Polygon(h3.h3_to_geo_boundary(h, geo_json=True))`. -/

/-- One row of the grids GeoDataFrame built by `generate_h3_grids`:
`hex_id` and the polygon geometry (a closed ring of lon/lat vertices). -/
structure GridRow where
  hex_id : String
  geometry : List (ℚ × ℚ)
deriving DecidableEq, Repr

/-- The loop of `generate_h3_grids`: for each hexagon id produced by
`h3.polyfill_geojson`, record the id and its boundary polygon. -/
def generate_h3_grids (polyfillResult : List String)
    (boundaryPoly : String → List (ℚ × ℚ)) : List GridRow :=
  polyfillResult.map (fun hex_id => { hex_id := hex_id, geometry := boundaryPoly hex_id })

/-! Script 03: `extract_population` (03_extract_population.py)

`rasterio.mask.mask` is external: per grid cell it either yields the list of
raster values of the cell's masked window (`MaskOutcome.ok values`, the
flattened first band `out_image[0]`) or raises (`MaskOutcome.exception`). -/

/-- Result of `rasterio.mask.mask` for one grid polygon. -/
inductive MaskOutcome where
  | ok (values : List ℚ)
  | exception
deriving DecidableEq, Repr

/-- Filtering `valid_data[valid_data != src.nodata]` when the raster has a
nodata value, the data unchanged otherwise. -/
def dropNodata (nodata : Option ℚ) (values : List ℚ) : List ℚ :=
  match nodata with
  | some nd => values.filter (fun v => v ≠ nd)
  | none => values

/-- Population of one grid cell: drop nodata, keep strictly positive values,
sum them (0 when none remain); on an exception the fallback is 0. -/
def extractPop (nodata : Option ℚ) (outcome : MaskOutcome) : ℚ :=
  match outcome with
  | .ok values =>
    let valid1 := dropNodata nodata values
    let valid2 := valid1.filter (fun v => 0 < v)
    if valid2.length > 0 then valid2.sum else 0
  | .exception => 0

/-- The per-grid loop of `extract_population`: one population value is
appended for every grid row, in order. -/
def extract_population (nodata : Option ℚ) (outcomes : List MaskOutcome) : List ℚ :=
  outcomes.map (extractPop nodata)

/-! Script 04: `assign_grids_to_facilities` and
`calculate_osrm_distances` (04_calculate_accessibility.py) -/

/-- One facility row of the facilities CSV (`name`, `latitude`, `longitude`). -/
structure Facility where
  name : String
  latitude : ℚ
  longitude : ℚ
deriving DecidableEq, Repr

instance : Inhabited Facility := ⟨⟨"", 0, 0⟩⟩

/-- One grid row as consumed by `assign_grids_to_facilities`
(`centroid_lat`, `centroid_lon`). -/
structure Grid04 where
  centroid_lat : ℚ
  centroid_lon : ℚ
deriving DecidableEq, Repr

/-- Squared Euclidean distance in degree space between a grid centroid and a
facility, the quantity `cKDTree` minimises for `tree.query(grid_coords)`
(both arrays are ordered lat, lon). -/
def sqDistDeg (g : Grid04) (f : Facility) : ℚ :=
  (g.centroid_lat - f.latitude) ^ 2 + (g.centroid_lon - f.longitude) ^ 2

/-- Index selection of a minimiser of `f`, scanning candidates left to right
and keeping the earliest index attaining the minimum (the semantics of the
KDTree nearest-neighbour query: one index of minimal distance). -/
def pickMinIdx (f : Nat → ℚ) (acc : Nat) : List Nat → Nat
  | [] => acc
  | i :: is => pickMinIdx f (if f i < f acc then i else acc) is

/-- The result of `tree.query` for one grid: the index of a nearest
facility. -/
def nearestIdx (g : Grid04) (fs : List Facility) : Nat :=
  pickMinIdx (fun i => sqDistDeg g (fs.getD i default)) 0 (List.range fs.length)

/-- One grid row after `assign_grids_to_facilities`: the original centroid
plus the assigned-facility columns. `straight_line_distance_km` is the
KDTree Euclidean distance times 111 (the script's rough degree-to-km
conversion). -/
structure AssignedRow where
  centroid_lat : ℚ
  centroid_lon : ℚ
  assigned_facility : String
  assigned_facility_id : Nat
  assigned_facility_lat : ℚ
  assigned_facility_lon : ℚ
  straight_line_distance_km : ℝ

/-- Assignment of one grid: the columns written by
`assign_grids_to_facilities` for that row. -/
noncomputable def assignGrid (fs : List Facility) (g : Grid04) : AssignedRow :=
  let i := nearestIdx g fs
  let f := fs.getD i default
  { centroid_lat := g.centroid_lat
    centroid_lon := g.centroid_lon
    assigned_facility := f.name
    assigned_facility_id := i
    assigned_facility_lat := f.latitude
    assigned_facility_lon := f.longitude
    straight_line_distance_km := Real.sqrt (sqDistDeg g f : ℝ) * 111 }

/-- Mapping of `assign_grids_to_facilities` over all grid rows. -/
noncomputable def assign_grids_to_facilities (grids : List Grid04)
    (fs : List Facility) : List AssignedRow :=
  grids.map (assignGrid fs)

/-- One route of an OSRM response (`distance` in metres, `duration` in
seconds). -/
structure OsrmRoute where
  distance : ℝ
  duration : ℝ

/-- Outcome of one OSRM HTTP request: a response with status code, OSRM
`code` field and route list, or a raised exception (timeout, connection
error, ...). -/
inductive OsrmResult where
  | response (status : Nat) (code : String) (routes : List OsrmRoute)
  | exception

/-- The per-row body of `calculate_osrm_distances`: route distance (km) and
travel time (min) from the first route when the request succeeded with code
"Ok" and a non-empty route list; in every other case the straight-line
fallback (distance itself, time assuming 30 km/h). -/
noncomputable def routeValues (row : AssignedRow) (resp : OsrmResult) : ℝ × ℝ :=
  match resp with
  | .response 200 code (r :: _) =>
    if code = "Ok" then
      (r.distance / 1000, r.duration / 60)
    else
      (row.straight_line_distance_km, row.straight_line_distance_km / 0.5)
  | _ => (row.straight_line_distance_km, row.straight_line_distance_km / 0.5)

/-- One grid row after `calculate_osrm_distances`: the assigned row plus the
`route_distance_km` and `travel_time_min` columns. -/
structure RoutedRow where
  base : AssignedRow
  route_distance_km : ℝ
  travel_time_min : ℝ

/-- The loop of `calculate_osrm_distances` starting at row index `i`; the
oracle gives the OSRM outcome of the request issued for each row index. -/
noncomputable def calcFrom (oracle : Nat → OsrmResult) (i : Nat) :
    List AssignedRow → List RoutedRow
  | [] => []
  | row :: rest =>
    let v := routeValues row (oracle i)
    { base := row, route_distance_km := v.1, travel_time_min := v.2 } ::
      calcFrom oracle (i + 1) rest

/-- The whole loop of `calculate_osrm_distances`: one OSRM request per grid
row, in order, starting at index 0. -/
noncomputable def calculate_osrm_distances (rows : List AssignedRow)
    (oracle : Nat → OsrmResult) : List RoutedRow :=
  calcFrom oracle 0 rows

/-- One output row written by the script's `__main__` block. `none` models
the null / NaN placeholders written when there are no facilities. -/
structure OutRow where
  assigned_facility : Option String
  route_distance_km : Option ℝ
  travel_time_min : Option ℝ

/-- The `__main__` block of 04_calculate_accessibility.py after loading:
with an empty facilities table it writes null assignment and NaN distance
columns without running assignment or routing; otherwise it runs both
steps. The second component counts the OSRM requests issued. -/
noncomputable def accessibilityMain (grids : List Grid04) (fs : List Facility)
    (oracle : Nat → OsrmResult) : List OutRow × Nat :=
  if fs.length = 0 then
    (grids.map (fun _ => { assigned_facility := none, route_distance_km := none,
                           travel_time_min := none }), 0)
  else
    let assigned := assign_grids_to_facilities grids fs
    let routed := calculate_osrm_distances assigned oracle
    (routed.map (fun r => { assigned_facility := some r.base.assigned_facility,
                            route_distance_km := some r.route_distance_km,
                            travel_time_min := some r.travel_time_min }),
     routed.length)

/-! Script 05: `compute_facility_metrics` (05_compute_metrics.py) -/

/-- One grid row as read by `compute_facility_metrics`:
`assigned_facility` (None for NaN), `population`, `route_distance_km`. -/
structure MGrid where
  assigned_facility : Option String
  population : ℚ
  route_distance_km : ℚ
deriving DecidableEq, Repr

/-- One metrics row. Distance statistics are `Option ℚ` so that the NaN
entries of the no-facilities row (and its absent percent columns) can be
modelled as `none`. -/
structure MetricsRow where
  district : String
  facility_name : String
  total_grids_served : Nat
  population_served : ℚ
  mean_distance_km : Option ℚ
  median_distance_km : Option ℚ
  min_distance_km : Option ℚ
  max_distance_km : Option ℚ
  pop_weighted_distance_km : Option ℚ
  pop_within_5km : ℚ
  pop_within_10km : ℚ
  pop_within_20km : ℚ
  percent_within_5km : Option ℚ
  percent_within_10km : Option ℚ
deriving DecidableEq, Repr

/-- Insert into an ascending list. -/
def insertLe (x : ℚ) : List ℚ → List ℚ
  | [] => [x]
  | y :: ys => if x ≤ y then x :: y :: ys else y :: insertLe x ys

/-- Ascending sort (insertion sort; `np.median` only depends on the sorted
order). -/
def sortLe (l : List ℚ) : List ℚ :=
  l.foldr insertLe []

/-- The mean `np.mean`: sum divided by length. -/
def npMean (l : List ℚ) : ℚ :=
  l.sum / l.length

/-- The median `np.median` (also `pandas.Series.median` on NaN-free data):
middle element of the sorted data for odd length, average of the two middle
elements for even length. -/
def npMedian (l : List ℚ) : ℚ :=
  let s := sortLe l
  let n := l.length
  if n % 2 = 1 then s.getD (n / 2) 0
  else (s.getD (n / 2 - 1) 0 + s.getD (n / 2) 0) / 2

/-- The minimum `np.min` of a non-empty array. -/
def npMin : List ℚ → ℚ
  | [] => 0
  | x :: xs => xs.foldr min x

/-- The maximum `np.max` of a non-empty array. -/
def npMax : List ℚ → ℚ
  | [] => 0
  | x :: xs => xs.foldr max x

/-- The order of `pandas.Series.unique`: distinct values in order of first
occurrence. -/
def uniqueFirst (l : List String) : List String :=
  l.foldl (fun acc x => if x ∈ acc then acc else acc ++ [x]) []

/-- The body of the per-facility loop of `compute_facility_metrics` for one
facility name. `hasPop` models `'population' in grids.columns`. -/
def facilityMetrics (district : String) (hasPop : Bool) (rows : List MGrid)
    (facility_name : String) : MetricsRow :=
  let fg := rows.filter (fun r => r.assigned_facility = some facility_name)
  let total_pop := if hasPop then (fg.map (fun r => r.population)).sum else 0
  let distances := fg.map (fun r => r.route_distance_km)
  let pop_weighted := if hasPop ∧ 0 < total_pop then
      (fg.map (fun r => r.population * r.route_distance_km)).sum / total_pop
    else npMean distances
  let within := fun (d : ℚ) =>
    if hasPop then ((fg.filter (fun r => r.route_distance_km ≤ d)).map
      (fun r => r.population)).sum else 0
  { district := district
    facility_name := facility_name
    total_grids_served := fg.length
    population_served := total_pop
    mean_distance_km := some (npMean distances)
    median_distance_km := some (npMedian distances)
    min_distance_km := some (npMin distances)
    max_distance_km := some (npMax distances)
    pop_weighted_distance_km := some pop_weighted
    pop_within_5km := within 5
    pop_within_10km := within 10
    pop_within_20km := within 20
    percent_within_5km := some (if 0 < total_pop then within 5 / total_pop * 100 else 0)
    percent_within_10km := some (if 0 < total_pop then within 10 / total_pop * 100 else 0) }

/-- The `district_summary` row of `compute_facility_metrics`, computed over
all grid rows. -/
def districtSummary (district : String) (hasPop : Bool) (rows : List MGrid) :
    MetricsRow :=
  let total_pop := if hasPop then (rows.map (fun r => r.population)).sum else 0
  let distances := rows.map (fun r => r.route_distance_km)
  let pop_weighted := if hasPop ∧ 0 < (rows.map (fun r => r.population)).sum then
      (rows.map (fun r => r.population * r.route_distance_km)).sum /
        (rows.map (fun r => r.population)).sum
    else npMean distances
  let within := fun (d : ℚ) =>
    if hasPop then ((rows.filter (fun r => r.route_distance_km ≤ d)).map
      (fun r => r.population)).sum else 0
  let pct := fun (d : ℚ) =>
    if hasPop ∧ 0 < (rows.map (fun r => r.population)).sum then
      within d / (rows.map (fun r => r.population)).sum * 100 else 0
  { district := district
    facility_name := "DISTRICT_TOTAL"
    total_grids_served := rows.length
    population_served := total_pop
    mean_distance_km := some (npMean distances)
    median_distance_km := some (npMedian distances)
    min_distance_km := some (npMin distances)
    max_distance_km := some (npMax distances)
    pop_weighted_distance_km := some pop_weighted
    pop_within_5km := within 5
    pop_within_10km := within 10
    pop_within_20km := within 20
    percent_within_5km := some (pct 5)
    percent_within_10km := some (pct 10) }

/-- The early-return row of `compute_facility_metrics` when no facility
assignments exist: counts 0, NaN distance statistics, and no percent
columns at all (both modelled as `none`). -/
def noFacilitiesRow (district : String) : MetricsRow :=
  { district := district
    facility_name := "No facilities"
    total_grids_served := 0
    population_served := 0
    mean_distance_km := none
    median_distance_km := none
    min_distance_km := none
    max_distance_km := none
    pop_weighted_distance_km := none
    pop_within_5km := 0
    pop_within_10km := 0
    pop_within_20km := 0
    percent_within_5km := none
    percent_within_10km := none }

/-- The function `compute_facility_metrics` on the loaded grid rows. `hasAssigned` models
`'assigned_facility' in grids.columns`; the early return fires when the
column is absent or entirely null, otherwise one row per distinct non-null
facility is emitted followed by the district summary. -/
def compute_facility_metrics (district : String) (hasAssigned hasPop : Bool)
    (rows : List MGrid) : List MetricsRow :=
  if hasAssigned = false ∨ rows.all (fun r => r.assigned_facility = none) then
    [noFacilitiesRow district]
  else
    (uniqueFirst (rows.filterMap (fun r => r.assigned_facility))).map
      (facilityMetrics district hasPop rows) ++
    [districtSummary district hasPop rows]

/-- Modelled from the spec: the claim that `median_distance_km` is "a
weighted quantile of the assigned grids' route distances, weighted by
population" — the 0.5 weighted quantile: the smallest distance whose
cumulative population weight, in ascending distance order, reaches half the
total weight. (The source computes `np.median(distances)` instead; this
definition exists only to compare the two.) -/
def weightedMedian (pairs : List (ℚ × ℚ)) : ℚ :=
  let s := (pairs.map Prod.fst).foldr insertLe []
  let w := fun (d : ℚ) => ((pairs.filter (fun p => p.1 ≤ d)).map Prod.snd).sum
  let total := (pairs.map Prod.snd).sum
  match s.find? (fun d => total / 2 ≤ w d) with
  | some d => d
  | none => 0

/-! Default rows (used as `getD` defaults when indexing row lists) and small
concrete tables used to exercise the theorems on closed inputs. -/

/-- Default assigned row for out-of-range `getD` indexing. -/
noncomputable def dAssignedRow : AssignedRow :=
  { centroid_lat := 0, centroid_lon := 0, assigned_facility := "",
    assigned_facility_id := 0, assigned_facility_lat := 0,
    assigned_facility_lon := 0, straight_line_distance_km := 0 }

/-- Default routed row for out-of-range `getD` indexing. -/
noncomputable def dRoutedRow : RoutedRow :=
  { base := dAssignedRow, route_distance_km := 0, travel_time_min := 0 }

/-- A concrete facility table: facility A at (3, 4), facility B at (30, 40). -/
def wFacilities : List Facility :=
  [{ name := "A", latitude := 3, longitude := 4 },
   { name := "B", latitude := 30, longitude := 40 }]

/-- A concrete grid centroid at the origin: facility A is nearest (distance
5 degrees). -/
def wGrid : Grid04 := { centroid_lat := 0, centroid_lon := 0 }

/-- A concrete assigned row with straight-line distance 7 km. -/
noncomputable def wAssignedRow : AssignedRow :=
  { centroid_lat := 0, centroid_lon := 0, assigned_facility := "A",
    assigned_facility_id := 0, assigned_facility_lat := 3,
    assigned_facility_lon := 4, straight_line_distance_km := 7 }

/-- A concrete OSRM oracle answering every request with a 1000 m / 60 s
route. -/
noncomputable def wOracle : Nat → OsrmResult :=
  fun _ => .response 200 "Ok" [{ distance := 1000, duration := 60 }]

/-- A concrete grids table for the metrics stage: two grids assigned to
facility A with populations 2 and 1 and route distances 3 and 6 km. -/
def wRows3 : List MGrid :=
  [{ assigned_facility := some "A", population := 2, route_distance_km := 3 },
   { assigned_facility := some "A", population := 1, route_distance_km := 6 }]

/-- A concrete grids table refuting the weighted-quantile reading of the
median: distances 1, 2, 100 km with populations 1, 1, 100. -/
def c5Rows : List MGrid :=
  [{ assigned_facility := some "F", population := 1, route_distance_km := 1 },
   { assigned_facility := some "F", population := 1, route_distance_km := 2 },
   { assigned_facility := some "F", population := 100, route_distance_km := 100 }]

/-- A concrete mask outcome list: one cell with values 4, -1, 7 and nodata
-1, one exceptional cell. -/
def wOutcomes : List MaskOutcome :=
  [.ok [4, -1, 7], .exception]

/-! Helper lemmas about the embedded primitives. -/

theorem pickMinIdx_mem (f : Nat → ℚ) (acc : Nat) (l : List Nat) :
    pickMinIdx f acc l = acc ∨ pickMinIdx f acc l ∈ l := by
  induction l generalizing acc with
  | nil => exact Or.inl rfl
  | cons i is ih =>
    rw [pickMinIdx]
    rcases ih (if f i < f acc then i else acc) with h | h
    · rw [h]
      split
      · exact Or.inr (List.mem_cons_self i is)
      · exact Or.inl rfl
    · exact Or.inr (List.mem_cons_of_mem i h)

theorem pickMinIdx_le_acc (f : Nat → ℚ) (acc : Nat) (l : List Nat) :
    f (pickMinIdx f acc l) ≤ f acc := by
  induction l generalizing acc with
  | nil => exact le_refl _
  | cons i is ih =>
    rw [pickMinIdx]
    refine le_trans (ih _) ?_
    split
    · exact le_of_lt (by assumption)
    · exact le_refl _

theorem pickMinIdx_le_mem (f : Nat → ℚ) (acc : Nat) (l : List Nat) :
    ∀ j ∈ l, f (pickMinIdx f acc l) ≤ f j := by
  induction l generalizing acc with
  | nil => intro j hj; exact absurd hj (List.not_mem_nil j)
  | cons i is ih =>
    intro j hj
    rw [pickMinIdx]
    rcases List.mem_cons.mp hj with rfl | hj
    · refine le_trans (pickMinIdx_le_acc f _ is) ?_
      split
      · exact le_refl _
      · exact le_of_not_lt (by assumption)
    · exact ih _ j hj

theorem nearestIdx_lt (g : Grid04) (fs : List Facility) (h : fs ≠ []) :
    nearestIdx g fs < fs.length := by
  rcases pickMinIdx_mem (fun i => sqDistDeg g (fs.getD i default)) 0
      (List.range fs.length) with h0 | hm
  · rw [nearestIdx, h0]; exact List.length_pos.mpr h
  · rw [nearestIdx]; exact List.mem_range.mp hm

theorem nearestIdx_min (g : Grid04) (fs : List Facility) (j : Nat)
    (hj : j < fs.length) :
    sqDistDeg g (fs.getD (nearestIdx g fs) default) ≤ sqDistDeg g (fs.getD j default) :=
  pickMinIdx_le_mem (fun i => sqDistDeg g (fs.getD i default)) 0
    (List.range fs.length) j (List.mem_range.mpr hj)

theorem uniqueFirst_aux_mem (l : List String) (acc : List String) (s : String) :
    s ∈ l.foldl (fun acc x => if x ∈ acc then acc else acc ++ [x]) acc ↔
      s ∈ acc ∨ s ∈ l := by
  induction l generalizing acc with
  | nil => simp
  | cons x xs ih =>
    simp only [List.foldl_cons]
    by_cases hx : x ∈ acc
    · simp only [if_pos hx, ih, List.mem_cons]
      constructor
      · rintro (h | h)
        · exact Or.inl h
        · exact Or.inr (Or.inr h)
      · rintro (h | rfl | h)
        · exact Or.inl h
        · exact Or.inl hx
        · exact Or.inr h
    · simp only [if_neg hx, ih, List.mem_append, List.mem_singleton, List.mem_cons]
      tauto

theorem uniqueFirst_mem (l : List String) (s : String) :
    s ∈ uniqueFirst l ↔ s ∈ l := by
  rw [uniqueFirst, uniqueFirst_aux_mem]
  simp

theorem uniqueFirst_aux_nodup (l : List String) (acc : List String)
    (h : acc.Nodup) :
    (l.foldl (fun acc x => if x ∈ acc then acc else acc ++ [x]) acc).Nodup := by
  induction l generalizing acc with
  | nil => exact h
  | cons x xs ih =>
    simp only [List.foldl_cons]
    by_cases hx : x ∈ acc
    · rw [if_pos hx]; exact ih acc h
    · rw [if_neg hx]
      refine ih (acc ++ [x]) ?_
      simp [List.nodup_append, h, hx]

theorem uniqueFirst_nodup (l : List String) : (uniqueFirst l).Nodup :=
  uniqueFirst_aux_nodup l [] List.nodup_nil

theorem mgrid_sum_nonneg (l : List MGrid) (h : ∀ r ∈ l, 0 ≤ r.population) :
    0 ≤ (l.map (fun r => r.population)).sum := by
  induction l with
  | nil => simp
  | cons r rs ih =>
    simp only [List.map_cons, List.sum_cons]
    have h1 := h r (List.mem_cons_self r rs)
    have h2 := ih (fun x hx => h x (List.mem_cons_of_mem r hx))
    linarith

theorem mgrid_filter_sum_le (l : List MGrid) (q : MGrid → Bool)
    (h : ∀ r ∈ l, 0 ≤ r.population) :
    ((l.filter q).map (fun r => r.population)).sum ≤
      (l.map (fun r => r.population)).sum := by
  induction l with
  | nil => simp
  | cons r rs ih =>
    have h1 := h r (List.mem_cons_self r rs)
    have h2 := ih (fun x hx => h x (List.mem_cons_of_mem r hx))
    by_cases hq : q r
    · simp only [List.filter_cons, hq, if_pos, List.map_cons, List.sum_cons]
      simpa using h2
    · simp only [List.filter_cons, List.map_cons, List.sum_cons]
      rw [if_neg (by simpa using hq)]
      linarith

theorem weighted_sum_le (l : List MGrid) (M : ℚ)
    (hp : ∀ r ∈ l, 0 ≤ r.population) (hd : ∀ r ∈ l, r.route_distance_km ≤ M) :
    (l.map (fun r => r.population * r.route_distance_km)).sum ≤
      (l.map (fun r => r.population)).sum * M := by
  induction l with
  | nil => simp
  | cons r rs ih =>
    simp only [List.map_cons, List.sum_cons, add_mul]
    have h1 : r.population * r.route_distance_km ≤ r.population * M :=
      mul_le_mul_of_nonneg_left (hd r (List.mem_cons_self r rs))
        (hp r (List.mem_cons_self r rs))
    have h2 := ih (fun x hx => hp x (List.mem_cons_of_mem r hx))
      (fun x hx => hd x (List.mem_cons_of_mem r hx))
    linarith

theorem le_weighted_sum (l : List MGrid) (c : ℚ)
    (hp : ∀ r ∈ l, 0 ≤ r.population) (hd : ∀ r ∈ l, c ≤ r.route_distance_km) :
    (l.map (fun r => r.population)).sum * c ≤
      (l.map (fun r => r.population * r.route_distance_km)).sum := by
  induction l with
  | nil => simp
  | cons r rs ih =>
    simp only [List.map_cons, List.sum_cons, add_mul]
    have h1 : r.population * c ≤ r.population * r.route_distance_km :=
      mul_le_mul_of_nonneg_left (hd r (List.mem_cons_self r rs))
        (hp r (List.mem_cons_self r rs))
    have h2 := ih (fun x hx => hp x (List.mem_cons_of_mem r hx))
      (fun x hx => hd x (List.mem_cons_of_mem r hx))
    linarith

theorem foldr_min_le_init (b : ℚ) (xs : List ℚ) : xs.foldr min b ≤ b := by
  induction xs with
  | nil => exact le_refl b
  | cons x xs ih => exact le_trans (min_le_right _ _) ih

theorem foldr_min_le_mem (b : ℚ) (xs : List ℚ) :
    ∀ x ∈ xs, xs.foldr min b ≤ x := by
  induction xs with
  | nil => intro x hx; exact absurd hx (List.not_mem_nil x)
  | cons y ys ih =>
    intro x hx
    rcases List.mem_cons.mp hx with rfl | hx
    · exact min_le_left _ _
    · exact le_trans (min_le_right _ _) (ih x hx)

theorem init_le_foldr_max (b : ℚ) (xs : List ℚ) : b ≤ xs.foldr max b := by
  induction xs with
  | nil => exact le_refl b
  | cons x xs ih => exact le_trans ih (le_max_right _ _)

theorem mem_le_foldr_max (b : ℚ) (xs : List ℚ) :
    ∀ x ∈ xs, x ≤ xs.foldr max b := by
  induction xs with
  | nil => intro x hx; exact absurd hx (List.not_mem_nil x)
  | cons y ys ih =>
    intro x hx
    rcases List.mem_cons.mp hx with rfl | hx
    · exact le_max_left _ _
    · exact le_trans (ih x hx) (le_max_right _ _)

theorem npMin_le (l : List ℚ) (x : ℚ) (hx : x ∈ l) : npMin l ≤ x := by
  cases l with
  | nil => exact absurd hx (List.not_mem_nil x)
  | cons y ys =>
    rcases List.mem_cons.mp hx with rfl | hx
    · exact foldr_min_le_init x ys
    · exact foldr_min_le_mem y ys x hx

theorem le_npMax (l : List ℚ) (x : ℚ) (hx : x ∈ l) : x ≤ npMax l := by
  cases l with
  | nil => exact absurd hx (List.not_mem_nil x)
  | cons y ys =>
    rcases List.mem_cons.mp hx with rfl | hx
    · exact init_le_foldr_max x ys
    · exact mem_le_foldr_max y ys x hx

theorem length_cast_pos (l : List ℚ) (h : l ≠ []) : 0 < (l.length : ℚ) := by
  exact_mod_cast List.length_pos.mpr h

theorem npMean_le_npMax (l : List ℚ) (h : l ≠ []) : npMean l ≤ npMax l := by
  have hlen := length_cast_pos l h
  rw [npMean, div_le_iff₀ hlen]
  have := List.sum_le_card_nsmul l (npMax l) (fun x hx => le_npMax l x hx)
  rw [nsmul_eq_mul] at this
  linarith

theorem npMin_le_npMean (l : List ℚ) (h : l ≠ []) : npMin l ≤ npMean l := by
  have hlen := length_cast_pos l h
  rw [npMean, le_div_iff₀ hlen]
  have := List.card_nsmul_le_sum l (npMin l) (fun x hx => npMin_le l x hx)
  rw [nsmul_eq_mul] at this
  linarith

theorem routeValues_success (row : AssignedRow) (r : OsrmRoute)
    (rest : List OsrmRoute) :
    routeValues row (.response 200 "Ok" (r :: rest)) =
      (r.distance / 1000, r.duration / 60) := by
  simp [routeValues]

theorem routeValues_fallback (row : AssignedRow) (resp : OsrmResult)
    (hfail : ∀ r rest, resp ≠ OsrmResult.response 200 "Ok" (r :: rest)) :
    routeValues row resp
      = (row.straight_line_distance_km, row.straight_line_distance_km / 0.5) := by
  unfold routeValues
  split
  · rename_i code r rest
    rw [if_neg (fun hc => hfail r rest (by rw [hc]))]
  · rfl

theorem calcFrom_length (oracle : Nat → OsrmResult) (k : Nat)
    (rows : List AssignedRow) :
    (calcFrom oracle k rows).length = rows.length := by
  induction rows generalizing k with
  | nil => rfl
  | cons row rest ih => simp [calcFrom, ih]

theorem calcFrom_getD (oracle : Nat → OsrmResult) (k : Nat)
    (rows : List AssignedRow) (i : Nat) (h : i < rows.length) :
    (calcFrom oracle k rows).getD i dRoutedRow =
      { base := rows.getD i dAssignedRow,
        route_distance_km :=
          (routeValues (rows.getD i dAssignedRow) (oracle (k + i))).1,
        travel_time_min :=
          (routeValues (rows.getD i dAssignedRow) (oracle (k + i))).2 } := by
  induction rows generalizing k i with
  | nil => exact absurd h (Nat.not_lt_zero i)
  | cons row rest ih =>
    cases i with
    | zero => simp [calcFrom]
    | succ n =>
      have hn : n < rest.length := Nat.lt_of_succ_lt_succ h
      have hidx : k + 1 + n = k + (n + 1) := by omega
      simp only [calcFrom, List.getD_cons_succ]
      rw [ih (k + 1) n hn, hidx]

theorem sum_filter_pos_nonneg (l : List ℚ) :
    0 ≤ (l.filter (fun v => 0 < v)).sum := by
  induction l with
  | nil => simp
  | cons x xs ih =>
    rw [List.filter_cons]
    by_cases hx : 0 < x
    · rw [if_pos (decide_eq_true hx)]
      simp only [List.sum_cons]
      linarith
    · rw [if_neg (fun hc => hx (of_decide_eq_true hc))]
      exact ih

theorem extractPop_nonneg (nd : Option ℚ) (o : MaskOutcome) :
    0 ≤ extractPop nd o := by
  cases o with
  | exception => exact le_refl 0
  | ok values =>
    simp only [extractPop]
    split
    · exact sum_filter_pos_nonneg _
    · exact le_refl 0

theorem within_sum_nonneg (hP : Bool) (l : List MGrid) (q : MGrid → Bool)
    (hpop : ∀ r ∈ l, 0 ≤ r.population) :
    0 ≤ (if hP then ((l.filter q).map (fun r => r.population)).sum else 0) := by
  cases hP with
  | false => simp
  | true =>
    simp only [if_pos]
    exact mgrid_sum_nonneg _ (fun r hr => hpop r (List.mem_of_mem_filter hr))

/-! Claim theorems. -/

/-- C1: for every grid cell and non-empty facility table,
`assign_grids_to_facilities` records a facility minimising the Euclidean
distance from the cell's centroid (`centroid_lat`, `centroid_lon`) to the
facility's (`latitude`, `longitude`) over all facilities, and
`straight_line_distance_km` is that minimal distance converted to
kilometres (times 111). -/
theorem assign_nearest_facility (grids : List Grid04) (fs : List Facility)
    (g : Grid04) (hfs : fs ≠ []) (hg : g ∈ grids) :
    ∃ row ∈ assign_grids_to_facilities grids fs, ∃ f ∈ fs,
      row.assigned_facility = f.name ∧
      row.assigned_facility_lat = f.latitude ∧
      row.assigned_facility_lon = f.longitude ∧
      (∀ f2 ∈ fs,
        Real.sqrt ((sqDistDeg g f : ℚ) : ℝ) ≤ Real.sqrt ((sqDistDeg g f2 : ℚ) : ℝ)) ∧
      row.straight_line_distance_km = Real.sqrt ((sqDistDeg g f : ℚ) : ℝ) * 111 := by
  refine ⟨assignGrid fs g, List.mem_map_of_mem (assignGrid fs) hg, ?_⟩
  have hilt : nearestIdx g fs < fs.length := nearestIdx_lt g fs hfs
  refine ⟨fs.getD (nearestIdx g fs) default, ?_, rfl, rfl, rfl, ?_, rfl⟩
  · rw [List.getD_eq_getElem fs default hilt]
    exact List.getElem_mem hilt
  · intro f2 hf2
    obtain ⟨j, hj, rfl⟩ := List.mem_iff_getElem.mp hf2
    have hmin := nearestIdx_min g fs j hj
    rw [List.getD_eq_getElem fs default hj] at hmin
    exact Real.sqrt_le_sqrt (by exact_mod_cast hmin)

/-- Witness for C1: with facilities A at (3, 4) and B at (30, 40) and the
grid centroid at the origin, the theorem applies. -/
theorem assign_nearest_facility_witness :
    ∃ row ∈ assign_grids_to_facilities [wGrid] wFacilities, ∃ f ∈ wFacilities,
      row.assigned_facility = f.name ∧
      row.assigned_facility_lat = f.latitude ∧
      row.assigned_facility_lon = f.longitude ∧
      (∀ f2 ∈ wFacilities,
        Real.sqrt ((sqDistDeg wGrid f : ℚ) : ℝ) ≤
          Real.sqrt ((sqDistDeg wGrid f2 : ℚ) : ℝ)) ∧
      row.straight_line_distance_km = Real.sqrt ((sqDistDeg wGrid f : ℚ) : ℝ) * 111 :=
  assign_nearest_facility [wGrid] wFacilities wGrid (by decide) (by decide)

/-- C4: `extract_population` yields one value per grid cell; for a cell whose
masking succeeds it is the sum of the raster values that are not nodata and
are strictly positive (0 when none exist, since the empty sum is 0), and for
a cell whose masking raises the fallback 0 is substituted while the other
cells are unaffected. -/
theorem extract_population_per_cell (nd : Option ℚ) (outs : List MaskOutcome)
    (i : Nat) (h : i < outs.length) :
    (extract_population nd outs).length = outs.length ∧
    (∀ vs, outs.getD i .exception = .ok vs →
      (extract_population nd outs).getD i 0 =
        ((dropNodata nd vs).filter (fun v => 0 < v)).sum) ∧
    (outs.getD i .exception = .exception →
      (extract_population nd outs).getD i 0 = 0) := by
  have hlen : (extract_population nd outs).length = outs.length := by
    simp [extract_population]
  have hget : (extract_population nd outs).getD i 0
      = extractPop nd (outs.getD i .exception) := by
    rw [extract_population, List.getD_eq_getElem _ _ (by simpa using h),
      List.getElem_map, ← List.getD_eq_getElem outs .exception h]
  refine ⟨hlen, ?_, ?_⟩
  · intro vs hvs
    rw [hget, hvs]
    simp only [extractPop]
    split
    · rfl
    · rename_i hneg
      have hempty : (dropNodata nd vs).filter (fun v => 0 < v) = [] := by
        cases hcase : (dropNodata nd vs).filter (fun v => 0 < v) with
        | nil => rfl
        | cons a l => rw [hcase] at hneg; simp at hneg
      rw [hempty]
      rfl
  · intro hexc
    rw [hget, hexc]
    rfl

/-- Witness for C4: a cell with raster values 4, -1, 7 and nodata -1 yields
11, and an exceptional cell yields 0. -/
theorem extract_population_per_cell_witness :
    (extract_population (some (-1)) wOutcomes).length = wOutcomes.length ∧
    (∀ vs, wOutcomes.getD 0 .exception = .ok vs →
      (extract_population (some (-1)) wOutcomes).getD 0 0 =
        ((dropNodata (some (-1)) vs).filter (fun v => 0 < v)).sum) ∧
    (wOutcomes.getD 0 .exception = .exception →
      (extract_population (some (-1)) wOutcomes).getD 0 0 = 0) :=
  extract_population_per_cell (some (-1)) wOutcomes 0 (by decide)

/-- C6: on the duplicate-free hexagon set returned by `h3.polyfill_geojson`,
all of whose members the h3 library produces at the requested resolution,
`generate_h3_grids` emits rows whose identifiers all carry that single
resolution, with no identifier repeated, and whose geometry is the boundary
polygon of the row's identifier. -/
theorem generate_h3_grids_uniform (hexes : List String)
    (boundaryPoly : String → List (ℚ × ℚ)) (h3Resolution : String → Nat)
    (res : Nat) (hset : hexes.Nodup)
    (hres : ∀ hx ∈ hexes, h3Resolution hx = res) :
    (∀ row ∈ generate_h3_grids hexes boundaryPoly,
        h3Resolution row.hex_id = res ∧ row.geometry = boundaryPoly row.hex_id) ∧
    ((generate_h3_grids hexes boundaryPoly).map (fun r => r.hex_id)).Nodup := by
  constructor
  · intro row hrow
    obtain ⟨hx, hh, rfl⟩ := List.mem_map.mp hrow
    exact ⟨hres hx hh, rfl⟩
  · rw [generate_h3_grids, List.map_map]
    have hcomp : ((fun r : GridRow => r.hex_id) ∘
        fun hex_id => ({ hex_id := hex_id, geometry := boundaryPoly hex_id } : GridRow))
        = fun hx => hx := rfl
    rw [hcomp, List.map_id']
    exact hset

/-- Witness for C6: two hexagon ids at resolution 8. -/
theorem generate_h3_grids_uniform_witness :
    (∀ row ∈ generate_h3_grids ["8928308280fffff", "8928308281fffff"]
        (fun _ => []),
        (fun _ => 8) row.hex_id = 8 ∧ row.geometry = (fun _ => ([] : List (ℚ × ℚ))) row.hex_id) ∧
    ((generate_h3_grids ["8928308280fffff", "8928308281fffff"]
        (fun _ => [])).map (fun r => r.hex_id)).Nodup :=
  generate_h3_grids_uniform ["8928308280fffff", "8928308281fffff"]
    (fun _ => []) (fun _ => 8) 8 (by decide) (by intro hx _; rfl)

/-- C2: per grid row, `calculate_osrm_distances` takes the routing server's
first route (distance / 1000 km, duration / 60 min) exactly when the request
returns status 200 with code "Ok" and a non-empty route list; in every other
case (non-200 status, code not "Ok", empty route list, raised exception) it
substitutes the straight-line fallback, and it always produces one output
row per input row (no failure propagates). -/
theorem calculate_osrm_per_row (rows : List AssignedRow)
    (oracle : Nat → OsrmResult) (i : Nat) (h : i < rows.length) :
    (calculate_osrm_distances rows oracle).length = rows.length ∧
    (∀ (r : OsrmRoute) (rest : List OsrmRoute),
      oracle i = .response 200 "Ok" (r :: rest) →
      ((calculate_osrm_distances rows oracle).getD i dRoutedRow).route_distance_km
          = r.distance / 1000 ∧
      ((calculate_osrm_distances rows oracle).getD i dRoutedRow).travel_time_min
          = r.duration / 60) ∧
    ((∀ r rest, oracle i ≠ .response 200 "Ok" (r :: rest)) →
      ((calculate_osrm_distances rows oracle).getD i dRoutedRow).route_distance_km
          = (rows.getD i dAssignedRow).straight_line_distance_km ∧
      ((calculate_osrm_distances rows oracle).getD i dRoutedRow).travel_time_min
          = (rows.getD i dAssignedRow).straight_line_distance_km / 0.5) := by
  have hbase := calcFrom_getD oracle 0 rows i h
  rw [Nat.zero_add] at hbase
  refine ⟨calcFrom_length oracle 0 rows, ?_, ?_⟩
  · intro r rest hor
    rw [calculate_osrm_distances, hbase, hor, routeValues_success]
    exact ⟨rfl, rfl⟩
  · intro hfail
    rw [calculate_osrm_distances, hbase,
      routeValues_fallback (rows.getD i dAssignedRow) (oracle i) hfail]
    exact ⟨rfl, rfl⟩

/-- Witness for C2: a single row and an oracle answering with a 1000 m / 60 s
route gives route_distance_km = 1. -/
theorem calculate_osrm_per_row_witness :
    ((calculate_osrm_distances [wAssignedRow] wOracle).getD 0
      dRoutedRow).route_distance_km = 1 := by
  have h := calculate_osrm_per_row [wAssignedRow] wOracle 0 (by simp)
  rw [(h.2.1 { distance := 1000, duration := 60 } [] rfl).1]
  norm_num

/-- C8: when the loaded facilities table is empty, the accessibility script
writes every grid with a null assigned facility and NaN route distance and
travel time, and issues no routing request at all. -/
theorem accessibility_main_no_facilities (grids : List Grid04)
    (fs : List Facility) (oracle : Nat → OsrmResult) (hfs : fs = []) :
    (accessibilityMain grids fs oracle).2 = 0 ∧
    (accessibilityMain grids fs oracle).1.length = grids.length ∧
    ∀ row ∈ (accessibilityMain grids fs oracle).1,
      row.assigned_facility = none ∧ row.route_distance_km = none ∧
      row.travel_time_min = none := by
  subst hfs
  simp only [accessibilityMain, List.length_nil, if_pos rfl]
  refine ⟨rfl, by simp, ?_⟩
  intro row hrow
  obtain ⟨g, hg, rfl⟩ := List.mem_map.mp hrow
  exact ⟨rfl, rfl, rfl⟩

/-- Witness for C8: one grid, no facilities. -/
theorem accessibility_main_no_facilities_witness :
    (accessibilityMain [wGrid] [] wOracle).2 = 0 ∧
    (accessibilityMain [wGrid] [] wOracle).1.length = [wGrid].length ∧
    ∀ row ∈ (accessibilityMain [wGrid] [] wOracle).1,
      row.assigned_facility = none ∧ row.route_distance_km = none ∧
      row.travel_time_min = none :=
  accessibility_main_no_facilities [wGrid] [] wOracle rfl

theorem facilityMetrics_pops_nonneg (district : String) (hP : Bool)
    (rows : List MGrid) (name : String)
    (hpop : ∀ r ∈ rows, 0 ≤ r.population) :
    0 ≤ (facilityMetrics district hP rows name).population_served ∧
    0 ≤ (facilityMetrics district hP rows name).pop_within_5km ∧
    0 ≤ (facilityMetrics district hP rows name).pop_within_10km ∧
    0 ≤ (facilityMetrics district hP rows name).pop_within_20km := by
  have hfg : ∀ r ∈ rows.filter (fun r => r.assigned_facility = some name),
      0 ≤ r.population :=
    fun r hr => hpop r (List.mem_of_mem_filter hr)
  simp only [facilityMetrics]
  refine ⟨?_, ?_, ?_, ?_⟩
  · cases hP with
    | false => simp
    | true =>
      simp only [if_pos]
      exact mgrid_sum_nonneg _ hfg
  · exact within_sum_nonneg hP _ _ hfg
  · exact within_sum_nonneg hP _ _ hfg
  · exact within_sum_nonneg hP _ _ hfg

theorem districtSummary_pops_nonneg (district : String) (hP : Bool)
    (rows : List MGrid) (hpop : ∀ r ∈ rows, 0 ≤ r.population) :
    0 ≤ (districtSummary district hP rows).population_served ∧
    0 ≤ (districtSummary district hP rows).pop_within_5km ∧
    0 ≤ (districtSummary district hP rows).pop_within_10km ∧
    0 ≤ (districtSummary district hP rows).pop_within_20km := by
  simp only [districtSummary]
  refine ⟨?_, ?_, ?_, ?_⟩
  · cases hP with
    | false => simp
    | true =>
      simp only [if_pos]
      exact mgrid_sum_nonneg _ hpop
  · exact within_sum_nonneg hP _ _ hpop
  · exact within_sum_nonneg hP _ _ hpop
  · exact within_sum_nonneg hP _ _ hpop

/-- C9: every population value produced by `extract_population` is
non-negative and there is exactly one value per input grid row; and on a
grids table whose populations are non-negative, every metrics row has
non-negative `population_served`, `pop_within_5km`, `pop_within_10km` and
`pop_within_20km`. -/
theorem populations_nonneg (nd : Option ℚ) (outs : List MaskOutcome)
    (district : String) (hA hP : Bool) (rows : List MGrid)
    (hpop : ∀ r ∈ rows, 0 ≤ r.population) :
    (extract_population nd outs).length = outs.length ∧
    (∀ p ∈ extract_population nd outs, 0 ≤ p) ∧
    (∀ m ∈ compute_facility_metrics district hA hP rows,
      0 ≤ m.population_served ∧ 0 ≤ m.pop_within_5km ∧
      0 ≤ m.pop_within_10km ∧ 0 ≤ m.pop_within_20km) := by
  refine ⟨by simp [extract_population], ?_, ?_⟩
  · intro p hp
    obtain ⟨o, ho, rfl⟩ := List.mem_map.mp hp
    exact extractPop_nonneg nd o
  · intro m hm
    rw [compute_facility_metrics] at hm
    split at hm
    · simp only [List.mem_singleton] at hm
      subst hm
      exact ⟨le_refl 0, le_refl 0, le_refl 0, le_refl 0⟩
    · rcases List.mem_append.mp hm with hm | hm
      · obtain ⟨name, hname, rfl⟩ := List.mem_map.mp hm
        exact facilityMetrics_pops_nonneg district hP rows name hpop
      · simp only [List.mem_singleton] at hm
        subst hm
        exact districtSummary_pops_nonneg district hP rows hpop

/-- Witness for C9: the concrete outcomes and grids tables. -/
theorem populations_nonneg_witness :
    (extract_population (some (-1)) wOutcomes).length = wOutcomes.length ∧
    (∀ p ∈ extract_population (some (-1)) wOutcomes, 0 ≤ p) ∧
    (∀ m ∈ compute_facility_metrics "Karonga" true true wRows3,
      0 ≤ m.population_served ∧ 0 ≤ m.pop_within_5km ∧
      0 ≤ m.pop_within_10km ∧ 0 ≤ m.pop_within_20km) :=
  populations_nonneg (some (-1)) wOutcomes "Karonga" true true wRows3 (by decide)

theorem compute_not_early (district : String) (hP : Bool) (rows : List MGrid)
    (name : String)
    (h1 : name ∈ uniqueFirst (rows.filterMap (fun r => r.assigned_facility))) :
    compute_facility_metrics district true hP rows =
      (uniqueFirst (rows.filterMap (fun r => r.assigned_facility))).map
        (facilityMetrics district hP rows) ++ [districtSummary district hP rows] := by
  have hex : ∃ r ∈ rows, r.assigned_facility = some name := by
    have hmem := (uniqueFirst_mem _ name).mp h1
    obtain ⟨r, hr, hr2⟩ := List.mem_filterMap.mp hmem
    exact ⟨r, hr, hr2⟩
  rw [compute_facility_metrics, if_neg]
  rintro (hc | hc)
  · exact absurd hc (by simp)
  · obtain ⟨r, hr, hr2⟩ := hex
    have hall := List.all_eq_true.mp hc r hr
    rw [hr2] at hall
    simp at hall

/-- C3: per facility with strictly positive total assigned population,
`pop_weighted_distance_km` is the population-weighted mean
sum(population * distance) / sum(population) of the assigned grids' route
distances; with zero total population it is the unweighted mean; and the
DISTRICT_TOTAL row carries the same weighted mean over all grids. -/
theorem pop_weighted_mean_correct (district : String) (rows : List MGrid)
    (name : String)
    (h1 : name ∈ uniqueFirst (rows.filterMap (fun r => r.assigned_facility))) :
    (facilityMetrics district true rows name ∈
      compute_facility_metrics district true true rows) ∧
    (0 < ((rows.filter (fun r => r.assigned_facility = some name)).map
        (fun r => r.population)).sum →
      (facilityMetrics district true rows name).pop_weighted_distance_km =
        some (((rows.filter (fun r => r.assigned_facility = some name)).map
            (fun r => r.population * r.route_distance_km)).sum /
          ((rows.filter (fun r => r.assigned_facility = some name)).map
            (fun r => r.population)).sum)) ∧
    (((rows.filter (fun r => r.assigned_facility = some name)).map
        (fun r => r.population)).sum = 0 →
      (facilityMetrics district true rows name).pop_weighted_distance_km =
        some (npMean ((rows.filter (fun r => r.assigned_facility = some name)).map
          (fun r => r.route_distance_km)))) ∧
    (districtSummary district true rows ∈
      compute_facility_metrics district true true rows) ∧
    (0 < (rows.map (fun r => r.population)).sum →
      (districtSummary district true rows).pop_weighted_distance_km =
        some ((rows.map (fun r => r.population * r.route_distance_km)).sum /
          (rows.map (fun r => r.population)).sum)) := by
  have hsplit := compute_not_early district true rows name h1
  refine ⟨?_, ?_, ?_, ?_, ?_⟩
  · rw [hsplit]
    exact List.mem_append_left _
      (List.mem_map_of_mem (facilityMetrics district true rows) h1)
  · intro hlt
    simp [facilityMetrics, hlt]
  · intro hz
    simp [facilityMetrics, hz]
  · rw [hsplit]
    exact List.mem_append_right _ (List.mem_singleton_self _)
  · intro hlt
    simp [districtSummary, hlt]

/-- Witness for C3: populations 2, 1 with distances 3, 6 give weighted mean
(2*3 + 1*6) / 3 = 4. -/
theorem pop_weighted_mean_correct_witness :
    (facilityMetrics "Karonga" true wRows3 "A").pop_weighted_distance_km =
      some 4 := by
  have h := pop_weighted_mean_correct "Karonga" wRows3 "A" (by decide)
  rw [h.2.1 (by norm_num [wRows3])]
  norm_num [wRows3]

/-- C7: with at least one non-null assignment, `compute_facility_metrics`
returns one row per distinct non-null assigned facility followed by exactly
one DISTRICT_TOTAL row appended last; with the column absent or entirely
null it returns the single "No facilities" row with zero counts and NaN
distance statistics. -/
theorem compute_metrics_shape (district : String) (hasAssigned hasPop : Bool)
    (rows : List MGrid) :
    ((hasAssigned = false ∨
        rows.all (fun r => r.assigned_facility = none) = true) →
      compute_facility_metrics district hasAssigned hasPop rows
          = [noFacilitiesRow district] ∧
      (noFacilitiesRow district).facility_name = "No facilities" ∧
      (noFacilitiesRow district).total_grids_served = 0 ∧
      (noFacilitiesRow district).population_served = 0 ∧
      (noFacilitiesRow district).mean_distance_km = none ∧
      (noFacilitiesRow district).median_distance_km = none ∧
      (noFacilitiesRow district).min_distance_km = none ∧
      (noFacilitiesRow district).max_distance_km = none ∧
      (noFacilitiesRow district).pop_weighted_distance_km = none) ∧
    (hasAssigned = true →
      (∃ r ∈ rows, r.assigned_facility ≠ none) →
      (compute_facility_metrics district hasAssigned hasPop rows).map
          (fun m => m.facility_name)
        = uniqueFirst (rows.filterMap (fun r => r.assigned_facility))
            ++ ["DISTRICT_TOTAL"] ∧
      (uniqueFirst (rows.filterMap (fun r => r.assigned_facility))).Nodup ∧
      (∀ s, s ∈ uniqueFirst (rows.filterMap (fun r => r.assigned_facility)) ↔
        some s ∈ rows.map (fun r => r.assigned_facility))) := by
  constructor
  · intro hc
    rw [compute_facility_metrics, if_pos hc]
    exact ⟨rfl, rfl, rfl, rfl, rfl, rfl, rfl, rfl, rfl⟩
  · intro hA hex
    subst hA
    obtain ⟨r, hr, hrne⟩ := hex
    have hnotall : ¬(true = false ∨
        rows.all (fun r => r.assigned_facility = none) = true) := by
      rintro (hc | hc)
      · exact absurd hc (by simp)
      · have hall := List.all_eq_true.mp hc r hr
        simp only [decide_eq_true_eq] at hall
        exact hrne hall
    rw [compute_facility_metrics, if_neg hnotall]
    refine ⟨?_, uniqueFirst_nodup _, ?_⟩
    · rw [List.map_append, List.map_map]
      have hcomp : ((fun m : MetricsRow => m.facility_name) ∘
          facilityMetrics district hasPop rows) = fun n => n := rfl
      rw [hcomp, List.map_id']
      rfl
    · intro s
      rw [uniqueFirst_mem]
      simp [List.mem_filterMap, List.mem_map]

/-- Witness for C7: both branches at concrete inputs — an empty table gives
the single "No facilities" row; the two-grid table assigned to A gives rows
named A then DISTRICT_TOTAL. -/
theorem compute_metrics_shape_witness :
    compute_facility_metrics "Karonga" true true [] =
      [noFacilitiesRow "Karonga"] ∧
    (compute_facility_metrics "Karonga" true true wRows3).map
      (fun m => m.facility_name) = ["A", "DISTRICT_TOTAL"] := by
  constructor
  · exact ((compute_metrics_shape "Karonga" true true []).1 (Or.inr (by decide))).1
  · have h := ((compute_metrics_shape "Karonga" true true wRows3).2 rfl (by decide)).1
    rw [h]
    decide

/-- C5 counterexample: on distances 1, 2, 100 km with populations 1, 1, 100
the reported `median_distance_km` is the unweighted np.median, 2 km, while
the population-weighted 0.5-quantile of the same data is 100 km — the claim
that the reported statistic is a weighted quantile fails. -/
theorem median_not_weighted_counterexample :
    ((compute_facility_metrics "Karonga" true true c5Rows).getD 0
      (noFacilitiesRow "Karonga")).median_distance_km = some 2 ∧
    weightedMedian (c5Rows.map (fun r => (r.route_distance_km, r.population)))
      = 100 ∧
    some (2 : ℚ) ≠ some (100 : ℚ) := by
  refine ⟨?_, ?_, by norm_num⟩
  · have hu : uniqueFirst (c5Rows.filterMap (fun r => r.assigned_facility))
        = ["F"] := by decide
    rw [compute_not_early "Karonga" true c5Rows "F" (by decide), hu]
    norm_num [c5Rows, facilityMetrics, npMedian, sortLe, insertLe,
      List.getD_cons_zero]
  · norm_num [c5Rows, weightedMedian, insertLe, List.find?]

/-- C5 amended: `median_distance_km` is the unweighted np.median of the
route distances (per facility over its assigned grids, and for the
DISTRICT_TOTAL row over all grids); population weights are not used. -/
theorem median_unweighted (district : String) (hP : Bool) (rows : List MGrid)
    (name : String)
    (h1 : name ∈ uniqueFirst (rows.filterMap (fun r => r.assigned_facility))) :
    (facilityMetrics district hP rows name ∈
      compute_facility_metrics district true hP rows) ∧
    (facilityMetrics district hP rows name).median_distance_km =
      some (npMedian ((rows.filter (fun r => r.assigned_facility = some name)).map
        (fun r => r.route_distance_km))) ∧
    (districtSummary district hP rows).median_distance_km =
      some (npMedian (rows.map (fun r => r.route_distance_km))) := by
  refine ⟨?_, rfl, rfl⟩
  rw [compute_not_early district hP rows name h1]
  exact List.mem_append_left _
    (List.mem_map_of_mem (facilityMetrics district hP rows) h1)

/-- Witness for C5 amended: distances 3 and 6 give np.median (3+6)/2 = 4.5. -/
theorem median_unweighted_witness :
    (facilityMetrics "Karonga" true wRows3 "A").median_distance_km =
      some (9 / 2) := by
  have h := median_unweighted "Karonga" true wRows3 "A" (by decide)
  rw [h.2.1]
  norm_num [wRows3, npMedian, sortLe, insertLe]

/-- C10: every per-facility metrics row computed from at least one assigned
grid with non-negative populations is internally consistent:
min_distance_km ≤ pop_weighted_distance_km ≤ max_distance_km,
min_distance_km ≤ mean_distance_km ≤ max_distance_km, and
percent_within_5km and percent_within_10km lie between 0 and 100. -/
theorem facility_stats_consistent (district : String) (hP : Bool)
    (rows : List MGrid) (name : String)
    (hne : rows.filter (fun r => r.assigned_facility = some name) ≠ [])
    (hpop : ∀ r ∈ rows, 0 ≤ r.population) :
    (facilityMetrics district hP rows name ∈
      compute_facility_metrics district true hP rows) ∧
    (∀ mn mx w m,
      (facilityMetrics district hP rows name).min_distance_km = some mn →
      (facilityMetrics district hP rows name).max_distance_km = some mx →
      (facilityMetrics district hP rows name).pop_weighted_distance_km = some w →
      (facilityMetrics district hP rows name).mean_distance_km = some m →
      mn ≤ w ∧ w ≤ mx ∧ mn ≤ m ∧ m ≤ mx) ∧
    (∀ p5 p10,
      (facilityMetrics district hP rows name).percent_within_5km = some p5 →
      (facilityMetrics district hP rows name).percent_within_10km = some p10 →
      0 ≤ p5 ∧ p5 ≤ 100 ∧ 0 ≤ p10 ∧ p10 ≤ 100) := by
  obtain ⟨x, hx⟩ := List.exists_mem_of_ne_nil _ hne
  have hx2 := List.mem_filter.mp hx
  have hxa : x.assigned_facility = some name := by simpa using hx2.2
  have h1 : name ∈ uniqueFirst (rows.filterMap (fun r => r.assigned_facility)) := by
    rw [uniqueFirst_mem]
    exact List.mem_filterMap.mpr ⟨x, hx2.1, hxa⟩
  have hmem : facilityMetrics district hP rows name ∈
      compute_facility_metrics district true hP rows := by
    rw [compute_not_early district hP rows name h1]
    exact List.mem_append_left _
      (List.mem_map_of_mem (facilityMetrics district hP rows) h1)
  have hfgpop : ∀ r ∈ rows.filter (fun r => r.assigned_facility = some name),
      0 ≤ r.population :=
    fun r hr => hpop r (List.mem_of_mem_filter hr)
  have hds_ne : (rows.filter (fun r => r.assigned_facility = some name)).map
      (fun r => r.route_distance_km) ≠ [] := by
    intro hcontr
    exact hne (List.map_eq_nil_iff.mp hcontr)
  have hd_le : ∀ r ∈ rows.filter (fun r => r.assigned_facility = some name),
      r.route_distance_km ≤
        npMax ((rows.filter (fun r => r.assigned_facility = some name)).map
          (fun r => r.route_distance_km)) :=
    fun r hr => le_npMax _ _ (List.mem_map_of_mem _ hr)
  have hd_ge : ∀ r ∈ rows.filter (fun r => r.assigned_facility = some name),
      npMin ((rows.filter (fun r => r.assigned_facility = some name)).map
        (fun r => r.route_distance_km)) ≤ r.route_distance_km :=
    fun r hr => npMin_le _ _ (List.mem_map_of_mem _ hr)
  refine ⟨hmem, ?_, ?_⟩
  · intro mn mx w m hmn hmx hw hm
    cases hP with
    | false =>
      simp only [facilityMetrics, Option.some.injEq, Bool.false_eq_true,
        false_and, if_false] at hmn hmx hw hm
      subst hmn; subst hmx; subst hw; subst hm
      exact ⟨npMin_le_npMean _ hds_ne, npMean_le_npMax _ hds_ne,
        npMin_le_npMean _ hds_ne, npMean_le_npMax _ hds_ne⟩
    | true =>
      by_cases hT : 0 < ((rows.filter (fun r => r.assigned_facility = some name)).map
          (fun r => r.population)).sum
      · simp only [facilityMetrics, Option.some.injEq, if_true, true_and,
          if_pos, hT] at hmn hmx hw hm
        subst hmn; subst hmx; subst hw; subst hm
        have hub := weighted_sum_le _ _ hfgpop hd_le
        have hlb := le_weighted_sum _ _ hfgpop hd_ge
        refine ⟨?_, ?_, npMin_le_npMean _ hds_ne, npMean_le_npMax _ hds_ne⟩
        · rw [le_div_iff₀ hT]
          linarith
        · rw [div_le_iff₀ hT]
          linarith
      · simp only [facilityMetrics, Option.some.injEq, if_true, true_and,
          hT, if_false] at hmn hmx hw hm
        subst hmn; subst hmx; subst hw; subst hm
        exact ⟨npMin_le_npMean _ hds_ne, npMean_le_npMax _ hds_ne,
          npMin_le_npMean _ hds_ne, npMean_le_npMax _ hds_ne⟩
  · intro p5 p10 hp5 hp10
    cases hP with
    | false =>
      simp only [facilityMetrics, Option.some.injEq, Bool.false_eq_true,
        false_and, if_false, lt_self_iff_false] at hp5 hp10
      subst hp5; subst hp10
      norm_num
    | true =>
      by_cases hT : 0 < ((rows.filter (fun r => r.assigned_facility = some name)).map
          (fun r => r.population)).sum
      · simp only [facilityMetrics, Option.some.injEq, if_true, true_and,
          if_pos, hT] at hp5 hp10
        subst hp5; subst hp10
        have hb5 := mgrid_filter_sum_le (rows.filter
          (fun r => r.assigned_facility = some name))
          (fun r => r.route_distance_km ≤ 5) hfgpop
        have hb10 := mgrid_filter_sum_le (rows.filter
          (fun r => r.assigned_facility = some name))
          (fun r => r.route_distance_km ≤ 10) hfgpop
        have hnn5 := mgrid_sum_nonneg ((rows.filter
          (fun r => r.assigned_facility = some name)).filter
          (fun r => r.route_distance_km ≤ 5))
          (fun r hr => hfgpop r (List.mem_of_mem_filter hr))
        have hnn10 := mgrid_sum_nonneg ((rows.filter
          (fun r => r.assigned_facility = some name)).filter
          (fun r => r.route_distance_km ≤ 10))
          (fun r hr => hfgpop r (List.mem_of_mem_filter hr))
        have hq5 : ((((rows.filter (fun r => r.assigned_facility = some name)).filter
            (fun r => r.route_distance_km ≤ 5)).map (fun r => r.population)).sum /
            ((rows.filter (fun r => r.assigned_facility = some name)).map
              (fun r => r.population)).sum) ≤ 1 :=
          (div_le_one hT).mpr hb5
        have hq10 : ((((rows.filter (fun r => r.assigned_facility = some name)).filter
            (fun r => r.route_distance_km ≤ 10)).map (fun r => r.population)).sum /
            ((rows.filter (fun r => r.assigned_facility = some name)).map
              (fun r => r.population)).sum) ≤ 1 :=
          (div_le_one hT).mpr hb10
        have hnq5 : 0 ≤ ((((rows.filter (fun r => r.assigned_facility = some name)).filter
            (fun r => r.route_distance_km ≤ 5)).map (fun r => r.population)).sum /
            ((rows.filter (fun r => r.assigned_facility = some name)).map
              (fun r => r.population)).sum) :=
          div_nonneg hnn5 (le_of_lt hT)
        have hnq10 : 0 ≤ ((((rows.filter (fun r => r.assigned_facility = some name)).filter
            (fun r => r.route_distance_km ≤ 10)).map (fun r => r.population)).sum /
            ((rows.filter (fun r => r.assigned_facility = some name)).map
              (fun r => r.population)).sum) :=
          div_nonneg hnn10 (le_of_lt hT)
        refine ⟨by linarith, by linarith, by linarith, by linarith⟩
      · simp only [facilityMetrics, Option.some.injEq, if_true, true_and,
          hT, if_false] at hp5 hp10
        subst hp5; subst hp10
        norm_num

/-- Witness for C10: on the concrete table (populations 2, 1; distances 3,
6 km) the reported min 3, pop-weighted 4, mean 4.5 and max 6 are ordered. -/
theorem facility_stats_consistent_witness :
    (facilityMetrics "Karonga" true wRows3 "A").min_distance_km = some 3 ∧
    (facilityMetrics "Karonga" true wRows3 "A").max_distance_km = some 6 ∧
    ((3 : ℚ) ≤ 4 ∧ (4 : ℚ) ≤ 6 ∧ (3 : ℚ) ≤ 9 / 2 ∧ (9 : ℚ) / 2 ≤ 6) := by
  have h := facility_stats_consistent "Karonga" true wRows3 "A"
    (by decide) (by decide)
  have hmn : (facilityMetrics "Karonga" true wRows3 "A").min_distance_km
      = some 3 := by norm_num [facilityMetrics, wRows3, npMin]
  have hmx : (facilityMetrics "Karonga" true wRows3 "A").max_distance_km
      = some 6 := by norm_num [facilityMetrics, wRows3, npMax]
  have hw : (facilityMetrics "Karonga" true wRows3 "A").pop_weighted_distance_km
      = some 4 := by norm_num [facilityMetrics, wRows3]
  have hm : (facilityMetrics "Karonga" true wRows3 "A").mean_distance_km
      = some (9 / 2) := by norm_num [facilityMetrics, wRows3, npMean]
  exact ⟨hmn, hmx, h.2.1 3 6 4 (9 / 2) hmn hmx hw hm⟩

end SpatialAccessibility
